import Mathlib

/-!
Verification of the RustVNC server sources (`vnc/encoding/tight.rs`,
`vnc_jni.rs`) against their natural-language specification.

The Rust code is shallowly embedded: byte buffers are `List Nat` whose
elements are meant to be `< 256`, 32-bit pixel values are `Nat` built from
their bytes, Rust `i32` (JNI `jint`) values are `Int`.  External libraries
(flate2's zlib and libjpeg-turbo) are modelled as function parameters, so
every branch of the Rust code that inspects their outcome is represented.
Helpers from `vnc/encoding/common.rs` and the framebuffer, whose sources
are not part of this tree, are modelled from the specification and marked
as such in their doc comments.
-/

namespace RustVNC

/-! Section: Compact length codec (tight.rs lines 106-117 and 175-186)

The same length-prefix code appears verbatim in `encode_tight_palette`
and `encode_tight_jpeg`; `encode_compact_len` is that shared code.
`len & 0x7F` is written `len % 128`, `x | 0x80` (for `x < 128`) is
written `x + 128`, and the `as u8` casts are written `% 256`. -/

/-- The compact length bytes emitted before a zlib/JPEG payload of
`len` bytes (tight.rs: `if len < 128 { .. } else if len < 16384 { .. }
else { .. }`). -/
def encode_compact_len (len : Nat) : List Nat :=
  if len < 128 then
    [len % 256]
  else if len < 16384 then
    [len % 128 + 128, (len / 128) % 256]
  else
    [len % 128 + 128, (len / 128) % 128 + 128, (len / 16384) % 256]

/-- Modelled from the spec: the Tight length codec reader, "1-3 bytes,
7 bits per byte, low-order first, continuation in bit 7"; a decoder
reads at most three bytes, the third byte contributing all eight of its
bits, as the 22-bit range requires. -/
def decode_byte3 : List Nat → Nat
  | [] => 0
  | b2 :: _ => b2

def decode_byte2 : List Nat → Nat
  | [] => 0
  | b1 :: rest1 => if b1 < 128 then b1 else b1 % 128 + 128 * decode_byte3 rest1

def decode_compact_len : List Nat → Nat
  | [] => 0
  | b0 :: rest0 => if b0 < 128 then b0 else b0 % 128 + 128 * decode_byte2 rest0

/-- A decoder that takes the claim's description literally: 7 data bits
in every byte, continuing for as long as bit 7 is set. -/
def decode_len_7bit : List Nat → Nat
  | [] => 0
  | b :: bs => b % 128 + if 128 ≤ b then 128 * decode_len_7bit bs else 0

/-- Number of bits in the binary representation of `n` (0 for 0). -/
def bit_length (n : Nat) : Nat :=
  if n = 0 then 0 else Nat.log2 n + 1

theorem bit_length_eq_log (n : Nat) (h : n ≠ 0) :
    bit_length n = Nat.log 2 n + 1 := by
  simp [bit_length, h, Nat.log2_eq_log_two]

theorem log_ge_of_le {k n : Nat} (h : 2 ^ k ≤ n) : k ≤ Nat.log 2 n := by
  have hn : n ≠ 0 := by
    have := Nat.pos_of_ne_zero (n := 2 ^ k) (by positivity)
    omega
  exact (Nat.pow_le_iff_le_log one_lt_two hn).mp h

theorem log_lt_of_lt {k n : Nat} (hn : n ≠ 0) (h : n < 2 ^ k) :
    Nat.log 2 n < k := by
  exact (Nat.lt_pow_iff_log_lt one_lt_two hn).mp h

theorem encode_compact_len_low {L : Nat} (h0 : L < 128) :
    encode_compact_len L = [L] := by
  unfold encode_compact_len
  rw [if_pos h0, Nat.mod_eq_of_lt (by omega)]

theorem encode_compact_len_mid {L : Nat} (h0 : ¬ L < 128) (h1 : L < 16384) :
    encode_compact_len L = [L % 128 + 128, L / 128] := by
  unfold encode_compact_len
  rw [if_neg h0, if_pos h1, Nat.mod_eq_of_lt (show L / 128 < 256 by omega)]

theorem encode_compact_len_high {L : Nat} (h1 : ¬ L < 16384) :
    encode_compact_len L
      = [L % 128 + 128, (L / 128) % 128 + 128, (L / 16384) % 256] := by
  unfold encode_compact_len
  rw [if_neg (by omega), if_neg h1]

theorem decode_one {b0 : Nat} (h : b0 < 128) :
    decode_compact_len [b0] = b0 := by
  simp [decode_compact_len, h]

theorem decode_two {b0 b1 : Nat} (h0 : ¬ b0 < 128) (h1 : b1 < 128) :
    decode_compact_len [b0, b1] = b0 % 128 + 128 * b1 := by
  simp [decode_compact_len, decode_byte2, h0, h1]

theorem decode_three {b0 b1 b2 : Nat} (h0 : ¬ b0 < 128) (h1 : ¬ b1 < 128) :
    decode_compact_len [b0, b1, b2]
      = b0 % 128 + 128 * (b1 % 128) + 16384 * b2 := by
  simp [decode_compact_len, decode_byte2, decode_byte3, h0, h1]
  ring

/-- Claim C3 counterexample.  At `L = 2^21` (which is `< 2^22`) the encoder
emits three bytes `[128, 128, 128]`; a literal unbounded 7-bit
continuation decoder reads past them and yields 0, and the byte count is
3, not `⌈bit_length(L)/7⌉ = ⌈22/7⌉ = 4`. -/
theorem c3_claim_counterexample :
    2 ^ 21 < 2 ^ 22 ∧
    decode_len_7bit (encode_compact_len (2 ^ 21)) = 0 ∧
    (encode_compact_len (2 ^ 21)).length = 3 ∧
    (bit_length (2 ^ 21) + 6) / 7 = 4 := by
  have he : encode_compact_len (2 ^ 21) = [128, 128, 128] := by
    rw [encode_compact_len_high (by norm_num)]
    norm_num
  refine ⟨by norm_num, ?_, ?_, ?_⟩
  · rw [he]
    norm_num [decode_len_7bit]
  · rw [he]
    rfl
  · have hlog : Nat.log 2 (2 ^ 21) = 21 := Nat.log_pow one_lt_two 21
    have h : bit_length (2 ^ 21) = 22 := by
      rw [bit_length_eq_log _ (by norm_num)]
      rw [hlog]
    rw [h]

/-- Claim C3, amended.  For every payload length `L < 2^22`, the compact
length bytes emitted by the Tight encoder decode back to `L` under the
1-3-byte Tight length codec (7 data bits and a bit-7 continuation flag in
the first two bytes, all 8 bits of the third byte), and the number of
bytes emitted is `min(⌈bit_length(L)/7⌉, 3)`, or 1 when `L = 0`. -/
theorem c3_compact_len_roundtrip (L : Nat) (h : L < 2 ^ 22) :
    decode_compact_len (encode_compact_len L) = L ∧
    (encode_compact_len L).length =
      (if L = 0 then 1 else min ((bit_length L + 6) / 7) 3) := by
  have h22 : L < 4194304 := by omega
  by_cases h0 : L < 128
  · refine ⟨?_, ?_⟩
    · rw [encode_compact_len_low h0, decode_one h0]
    · by_cases hz : L = 0
      · simp [hz, encode_compact_len_low (show (0:Nat) < 128 by omega)]
      · have hlog : Nat.log 2 L < 7 := log_lt_of_lt hz (by omega)
        rw [encode_compact_len_low h0, bit_length_eq_log L hz]
        simp only [List.length_singleton, List.length_nil, if_neg hz]
        omega
  · by_cases h1 : L < 16384
    · have hz : L ≠ 0 := by omega
      have hlo : 7 ≤ Nat.log 2 L := log_ge_of_le (by omega)
      have hhi : Nat.log 2 L < 14 := log_lt_of_lt hz (by omega)
      refine ⟨?_, ?_⟩
      · rw [encode_compact_len_mid h0 h1, decode_two (by omega) (by omega)]
        omega
      · rw [encode_compact_len_mid h0 h1, bit_length_eq_log L hz]
        simp only [List.length_cons, List.length_singleton, List.length_nil, if_neg hz]
        omega
    · have hz : L ≠ 0 := by omega
      have hlo : 14 ≤ Nat.log 2 L := log_ge_of_le (by omega)
      have hhi : Nat.log 2 L < 22 := log_lt_of_lt hz (by omega)
      refine ⟨?_, ?_⟩
      · rw [encode_compact_len_high h1, decode_three (by omega) (by omega)]
        omega
      · rw [encode_compact_len_high h1, bit_length_eq_log L hz]
        simp only [List.length_cons, List.length_singleton, List.length_nil, if_neg hz]
        omega

theorem c3_compact_len_roundtrip_witness :
    300 < 2 ^ 22 ∧
    (decode_compact_len (encode_compact_len 300) = 300 ∧
     (encode_compact_len 300).length =
       (if 300 = 0 then 1 else min ((bit_length 300 + 6) / 7) 3)) :=
  ⟨by norm_num, c3_compact_len_roundtrip 300 (by norm_num)⟩

/-- Claim C9.  For every payload length `L ≥ 2^22` the encoder still emits
exactly three compact-length bytes (a fourth byte is never produced), and
those bytes decode back to `L mod 2^22`: the high-order bits are silently
truncated.  Both the palette path and the JPEG path emit their length
prefix with this same `encode_compact_len` code. -/
theorem c9_compact_len_truncation (L : Nat) (h : 2 ^ 22 ≤ L) :
    (encode_compact_len L).length = 3 ∧
    decode_compact_len (encode_compact_len L) = L % 2 ^ 22 := by
  have h22 : 4194304 ≤ L := by omega
  have h1 : ¬ L < 16384 := by omega
  refine ⟨?_, ?_⟩
  · rw [encode_compact_len_high h1]
    rfl
  · rw [encode_compact_len_high h1, decode_three (by omega) (by omega)]
    have : (2 : Nat) ^ 22 = 4194304 := by norm_num
    rw [this]
    omega

theorem c9_compact_len_truncation_witness :
    2 ^ 22 ≤ 2 ^ 22 + 5 ∧
    ((encode_compact_len (2 ^ 22 + 5)).length = 3 ∧
     decode_compact_len (encode_compact_len (2 ^ 22 + 5)) = (2 ^ 22 + 5) % 2 ^ 22) :=
  ⟨by omega, c9_compact_len_truncation (2 ^ 22 + 5) (by omega)⟩

/-! Section: Tight encoding (tight.rs)

The two external compressors are parameters: `Z` stands for flate2's
`ZlibEncoder` (its `write_all` and `finish` steps can each fail), `J`
for the TurboJPEG encoder (`TurboJpegEncoder::new` and `compress_rgb`
can each fail). -/

/-- Outcome of compressing with flate2: success with the compressed
bytes, or failure of the `write_all` or of the `finish` step. -/
inductive ZlibOutcome where
  | ok (bytes : List Nat)
  | writeErr
  | finishErr
deriving DecidableEq

/-- Outcome of JPEG compression: success with the JPEG bytes, or failure
of `TurboJpegEncoder::new()` or of `compress_rgb`. -/
inductive JpegOutcome where
  | ok (bytes : List Nat)
  | createErr
  | compressErr
deriving DecidableEq

/-- flate2's `Compression` values as used in tight.rs. -/
inductive Compression where
  | fast
  | new (level : Nat)
  | default
  | best
deriving DecidableEq

/-- tight.rs lines 64-69: map the RFB compression knob to a flate2
level (`0 => fast, 1..=3 => new(c), 4..=6 => default, _ => best`). -/
def compression_level (compression : Nat) : Compression :=
  if compression = 0 then .fast
  else if compression ≤ 3 then .new compression
  else if compression ≤ 6 then .default
  else .best

/-- Modelled from the spec: `rgba_to_rgb24_pixels` from
`vnc/encoding/common.rs` (a file not in this tree) packs each 4-byte
pixel of the input into one color value built from its first three
bytes; the fourth (padding) byte of a BGRX pixel is zero by the data
model and does not reach the wire (scenario S3 re-emits a solid
`00 FF 00 00` pixel as the same four bytes).  A trailing incomplete
chunk is dropped, as `chunks_exact(4)` drops it. -/
def rgba_to_rgb24_pixels : List Nat → List Nat
  | b0 :: b1 :: b2 :: _ :: rest =>
      (b0 + 256 * b1 + 65536 * b2) :: rgba_to_rgb24_pixels rest
  | _ => []

/-- Modelled from the spec: `check_solid_color` from common.rs returns
the color when all pixels are equal ("Tight / Solid: if all pixels
equal"), and nothing otherwise. -/
def check_solid_color (pixels : List Nat) : Option Nat :=
  match pixels with
  | [] => none
  | p :: rest => if rest.all (fun q => q == p) then some p else none

/-- Modelled from the spec: `build_palette` from common.rs collects the
distinct colors in first-seen order ("Palette (Tight): ordered list of
distinct 32-bit colors in first-seen order"). -/
def build_palette_loop (acc : List Nat) : List Nat → List Nat
  | [] => acc
  | p :: rest =>
      build_palette_loop (if acc.contains p then acc else acc ++ [p]) rest

def build_palette (pixels : List Nat) : List Nat :=
  build_palette_loop [] pixels

/-- Modelled from the spec: `put_pixel32` from common.rs appends a color
as its four little-endian bytes ("4 bytes for 32bpp"). -/
def put_pixel32 (color : Nat) : List Nat :=
  [color % 256, color / 256 % 256, color / 65536 % 256, color / 16777216 % 256]

/-- tight.rs lines 51-61: the color-to-index `HashMap` built from the
(distinct) palette followed by `get(..).unwrap_or(&0)`: the index of the
color in the palette, 0 when absent. -/
def color_index_from (i : Nat) (palette : List Nat) (p : Nat) : Nat :=
  match palette with
  | [] => 0
  | c :: rest => if c = p then i else color_index_from (i + 1) rest p

def color_index (palette : List Nat) (p : Nat) : Nat :=
  color_index_from 0 palette p

/-- tight.rs lines 127-133: keep the first three bytes of each 4-byte
pixel (labelled R, G, B by the code) for the JPEG compressor. -/
def rgb_of_rgba : List Nat → List Nat
  | c0 :: c1 :: c2 :: _ :: rest => c0 :: c1 :: c2 :: rgb_of_rgba rest
  | _ => []

/-- tight.rs lines 146-151 (and identically 162-167): the fallback body
written after control byte 0x00, re-emitting each pixel as its three
color bytes plus a zero padding byte. -/
def basic_tight_body : List Nat → List Nat
  | c0 :: c1 :: c2 :: _ :: rest => c0 :: c1 :: c2 :: 0 :: basic_tight_body rest
  | _ => []

/-- tight.rs lines 76-78 (and identically 88-90): convert the `u32`
pixels back to 4-byte form (alpha byte 0xFF) for the JPEG fallback. -/
def rgba_of_pixels (pixels : List Nat) : List Nat :=
  (pixels.map (fun p => [p % 256, p / 256 % 256, p / 65536 % 256, 255])).flatten

/-- tight.rs `encode_tight_solid` (lines 40-45): control byte 0x80 then
one pixel. -/
def encode_tight_solid (color : Nat) : List Nat :=
  128 :: put_pixel32 color

/-- tight.rs `encode_tight_jpeg` (lines 124-190): convert to 3-byte
pixels, run the JPEG compressor, and on success emit `0x90`, the compact
length, and the stream; on either compressor failure emit `0x00` and the
basic-Tight body. -/
def encode_tight_jpeg (J : List Nat → Nat → Nat → Nat → JpegOutcome)
    (data : List Nat) (width height quality : Nat) : List Nat :=
  match J (rgb_of_rgba data) width height quality with
  | .ok jpeg_data => 144 :: (encode_compact_len jpeg_data.length ++ jpeg_data)
  | .createErr => 0 :: basic_tight_body data
  | .compressErr => 0 :: basic_tight_body data

/-- tight.rs `encode_tight_palette` (lines 48-121).  The control byte is
`0x80 | ((palette_size - 1) as u8)`, written `128 ||| (size - 1) % 256`.
On either zlib failure the function falls back to JPEG at quality 75 on
the reconstituted 4-byte pixels. -/
def encode_tight_palette (Z : Compression → List Nat → ZlibOutcome)
    (J : List Nat → Nat → Nat → Nat → JpegOutcome)
    (pixels : List Nat) (width height : Nat) (palette : List Nat)
    (compression : Nat) : List Nat :=
  let indices := pixels.map (color_index palette)
  match Z (compression_level compression) indices with
  | .writeErr => encode_tight_jpeg J (rgba_of_pixels pixels) width height 75
  | .finishErr => encode_tight_jpeg J (rgba_of_pixels pixels) width height 75
  | .ok compressed =>
      (128 ||| (palette.length - 1) % 256)
        :: ((palette.map put_pixel32).flatten
            ++ (encode_compact_len compressed.length ++ compressed))

/-- tight.rs `TightEncoding::encode` (lines 18-36): solid fill if all
pixels are equal, else indexed palette if the distinct color count `c`
satisfies `2 ≤ c ≤ 16` and `c < pixels.len() / 4`, else JPEG. -/
def tight_encode (Z : Compression → List Nat → ZlibOutcome)
    (J : List Nat → Nat → Nat → Nat → JpegOutcome)
    (data : List Nat) (width height quality compression : Nat) : List Nat :=
  let pixels := rgba_to_rgb24_pixels data
  match check_solid_color pixels with
  | some solid_color => encode_tight_solid solid_color
  | none =>
    let palette := build_palette pixels
    if 2 ≤ palette.length ∧ palette.length ≤ 16 ∧
        palette.length < pixels.length / 4 then
      encode_tight_palette Z J pixels width height palette compression
    else
      encode_tight_jpeg J data width height quality

/-! Section: Concrete compressor stubs, used to evaluate the encoder. -/

def zlib_id (_ : Compression) (bs : List Nat) : ZlibOutcome := .ok bs

def zlib_fail_write (_ : Compression) (_ : List Nat) : ZlibOutcome := .writeErr

def zlib_fail_finish (_ : Compression) (_ : List Nat) : ZlibOutcome := .finishErr

def jpeg_id (rgb : List Nat) (_ _ _ : Nat) : JpegOutcome := .ok rgb

def jpeg_fail (_ : List Nat) (_ _ _ : Nat) : JpegOutcome := .createErr

/-- The data-model invariant on encoder input: whole 4-byte pixels whose
fourth (padding) byte is zero, as 32-bit BGRX prescribes. -/
def is_bgrx : List Nat → Bool
  | [] => true
  | _ :: _ :: _ :: x :: rest => x == 0 && is_bgrx rest
  | _ => false

theorem basic_body_id (l : List Nat) (h : is_bgrx l = true) :
    basic_tight_body l = l := by
  match l with
  | [] => rfl
  | c0 :: c1 :: c2 :: x :: rest =>
      simp only [is_bgrx, Bool.and_eq_true, beq_iff_eq] at h
      simp only [basic_tight_body, h.1]
      rw [basic_body_id rest h.2]
  | [_] => simp [is_bgrx] at h
  | [_, _] => simp [is_bgrx] at h
  | [_, _, _] => simp [is_bgrx] at h

theorem lor_small : ∀ m, m < 128 → 128 ||| m = 128 + m := by decide

/-- Claim C5.  In the Tight palette path, the RFB compression knob 0-9 maps
to the zlib level: fastest for 0, exactly that level for 1-3, the zlib
default for 4-6, and best for 7-9.  (`compression_level` is the value
`encode_tight_palette` hands to the zlib encoder.) -/
theorem c5_compression_level (c : Nat) (h : c ≤ 9) :
    (c = 0 → compression_level c = .fast) ∧
    (1 ≤ c → c ≤ 3 → compression_level c = .new c) ∧
    (4 ≤ c → c ≤ 6 → compression_level c = .default) ∧
    (7 ≤ c → compression_level c = .best) := by
  revert h
  revert c
  decide

theorem c5_compression_level_witness :
    5 ≤ 9 ∧
    ((5 = 0 → compression_level 5 = .fast) ∧
     (1 ≤ 5 → 5 ≤ 3 → compression_level 5 = .new 5) ∧
     (4 ≤ 5 → 5 ≤ 6 → compression_level 5 = .default) ∧
     (7 ≤ 5 → compression_level 5 = .best)) :=
  ⟨by decide, c5_compression_level 5 (by decide)⟩

/-- Claim C6.  If zlib compression of the palette indices fails at either
the write or the finish step, the rectangle is encoded by the Tight/JPEG
path at quality 75 instead; `encode_tight_palette` is total, so no error
reaches the caller of `TightEncoding::encode`. -/
theorem c6_palette_zlib_failure
    (Z : Compression → List Nat → ZlibOutcome)
    (J : List Nat → Nat → Nat → Nat → JpegOutcome)
    (pixels : List Nat) (width height : Nat) (palette : List Nat)
    (compression : Nat)
    (h : Z (compression_level compression) (pixels.map (color_index palette))
           = .writeErr ∨
         Z (compression_level compression) (pixels.map (color_index palette))
           = .finishErr) :
    encode_tight_palette Z J pixels width height palette compression
      = encode_tight_jpeg J (rgba_of_pixels pixels) width height 75 := by
  rcases h with h | h <;> simp only [encode_tight_palette, h]

theorem c6_palette_zlib_failure_witness :
    (zlib_fail_write (compression_level 6) (([1, 2] : List Nat).map (color_index [1, 2]))
       = ZlibOutcome.writeErr ∨
     zlib_fail_write (compression_level 6) (([1, 2] : List Nat).map (color_index [1, 2]))
       = ZlibOutcome.finishErr) ∧
    encode_tight_palette zlib_fail_write jpeg_fail [1, 2] 2 1 [1, 2] 6
      = encode_tight_jpeg jpeg_fail (rgba_of_pixels [1, 2]) 2 1 75 :=
  ⟨Or.inl rfl,
   c6_palette_zlib_failure zlib_fail_write jpeg_fail [1, 2] 2 1 [1, 2] 6 (Or.inl rfl)⟩

/-- Claim C2.  The Tight JPEG path hands the compressor one 3-byte color
triple per 4-byte input pixel (the pixel's three color channels, its
padding byte dropped) at the given quality; on success the output is
control byte 0x90 then the compact-length-prefixed stream, and on
compressor failure it is control byte 0x00 followed by the pixels in the
4-byte client format (identical to the input when the input is BGRX,
i.e. every padding byte is zero). -/
theorem c2_jpeg_encoding
    (J : List Nat → Nat → Nat → Nat → JpegOutcome)
    (data : List Nat) (width height quality : Nat) :
    (∀ jd, J (rgb_of_rgba data) width height quality = .ok jd →
       encode_tight_jpeg J data width height quality
         = 144 :: (encode_compact_len jd.length ++ jd)) ∧
    ((J (rgb_of_rgba data) width height quality = .createErr ∨
      J (rgb_of_rgba data) width height quality = .compressErr) →
     is_bgrx data = true →
     encode_tight_jpeg J data width height quality = 0 :: data) := by
  constructor
  · intro jd hj
    simp only [encode_tight_jpeg, hj]
  · intro hf hb
    rcases hf with h | h <;>
      simp only [encode_tight_jpeg, h, basic_body_id data hb]

theorem c2_jpeg_encoding_witness :
    (jpeg_id (rgb_of_rgba [9, 8, 7, 0]) 1 1 75 = JpegOutcome.ok [9, 8, 7] ∧
     encode_tight_jpeg jpeg_id [9, 8, 7, 0] 1 1 75
       = 144 :: (encode_compact_len (List.length [9, 8, 7]) ++ [9, 8, 7])) ∧
    ((jpeg_fail (rgb_of_rgba [9, 8, 7, 0]) 1 1 75 = JpegOutcome.createErr ∨
      jpeg_fail (rgb_of_rgba [9, 8, 7, 0]) 1 1 75 = JpegOutcome.compressErr) ∧
     is_bgrx [9, 8, 7, 0] = true ∧
     encode_tight_jpeg jpeg_fail [9, 8, 7, 0] 1 1 75 = 0 :: [9, 8, 7, 0]) :=
  ⟨⟨by decide,
    (c2_jpeg_encoding jpeg_id [9, 8, 7, 0] 1 1 75).1 [9, 8, 7] (by decide)⟩,
   ⟨Or.inl (by decide), by decide,
    (c2_jpeg_encoding jpeg_fail [9, 8, 7, 0] 1 1 75).2 (Or.inl (by decide))
      (by decide)⟩⟩

theorem rgb24_replicate (n b0 b1 b2 x : Nat) :
    rgba_to_rgb24_pixels ((List.replicate n [b0, b1, b2, x]).flatten)
      = List.replicate n (b0 + 256 * b1 + 65536 * b2) := by
  induction n with
  | zero => rfl
  | succ k ih => simp [List.replicate_succ, rgba_to_rgb24_pixels, ih]

theorem check_solid_replicate (n p : Nat) (h : 1 ≤ n) :
    check_solid_color (List.replicate n p) = some p := by
  obtain ⟨k, rfl⟩ : ∃ k, n = k + 1 := ⟨n - 1, by omega⟩
  have hall : (List.replicate k p).all (fun q => q == p) = true := by
    simp [List.all_eq_true]
  simp [List.replicate_succ, check_solid_color, hall]

theorem put_pixel32_pack (b0 b1 b2 : Nat) (h0 : b0 < 256) (h1 : b1 < 256)
    (h2 : b2 < 256) :
    put_pixel32 (b0 + 256 * b1 + 65536 * b2) = [b0, b1, b2, 0] := by
  simp only [put_pixel32, List.cons.injEq, and_true]
  refine ⟨?_, ?_, ?_, ?_⟩ <;> omega

/-- Claim C4.  A rectangle whose pixels all equal one BGRX value (bytes
`b0 b1 b2 0`) Tight-encodes to exactly five bytes: control byte 0x80
followed by that pixel's four bytes. -/
theorem c4_solid
    (Z : Compression → List Nat → ZlibOutcome)
    (J : List Nat → Nat → Nat → Nat → JpegOutcome)
    (n b0 b1 b2 width height quality compression : Nat)
    (hn : 1 ≤ n) (h0 : b0 < 256) (h1 : b1 < 256) (h2 : b2 < 256) :
    tight_encode Z J ((List.replicate n [b0, b1, b2, 0]).flatten)
        width height quality compression
      = [128, b0, b1, b2, 0] := by
  simp only [tight_encode, rgb24_replicate, check_solid_replicate _ _ hn,
    encode_tight_solid]
  rw [put_pixel32_pack _ _ _ h0 h1 h2]

theorem c4_solid_witness :
    1 ≤ 4 ∧ (0 : Nat) < 256 ∧ (255 : Nat) < 256 ∧
    tight_encode zlib_id jpeg_id ((List.replicate 4 [0, 255, 0, 0]).flatten)
        2 2 75 6
      = [128, 0, 255, 0, 0] :=
  ⟨by decide, by decide, by decide,
   c4_solid zlib_id jpeg_id 4 0 255 0 2 2 75 6 (by decide) (by decide)
     (by decide) (by decide)⟩

theorem build_palette_loop_all_mem (l : List Nat) (acc : List Nat)
    (h : ∀ q ∈ l, acc.contains q = true) :
    build_palette_loop acc l = acc := by
  induction l generalizing acc with
  | nil => rfl
  | cons p rest ih =>
      have hp : acc.contains p = true := h p (by simp)
      simp only [build_palette_loop, hp, if_true]
      exact ih acc (fun q hq => h q (by simp [hq]))

theorem palette_of_solid {pixels : List Nat} {c : Nat}
    (h : check_solid_color pixels = some c) :
    build_palette pixels = [c] := by
  match pixels with
  | [] => simp [check_solid_color] at h
  | p :: rest =>
      simp only [check_solid_color] at h
      split at h
      · next hall =>
          have hc : p = c := by simpa using h
          have hb : build_palette (p :: rest) = build_palette_loop [p] rest := rfl
          have hmem : ∀ q ∈ rest, List.contains [p] q = true := by
            intro q hq
            have hqp : q = p := by
              have := List.all_eq_true.mp hall q hq
              simpa using this
            simp [hqp]
          rw [hb, build_palette_loop_all_mem rest [p] hmem, hc]
      · exact absurd h (by simp)

theorem check_solid_of_palette {pixels : List Nat}
    (h2 : 2 ≤ (build_palette pixels).length) :
    check_solid_color pixels = none := by
  cases hs : check_solid_color pixels with
  | none => rfl
  | some c =>
      rw [palette_of_solid hs] at h2
      simp at h2

/-- An eight-pixel, two-color rectangle (colors 1 and 2 alternating, four
pixels each): the distinct color count is 2 and the pixel count 8 is at
least 4·2, yet `encode` takes the JPEG path. -/
def checker_4x2 : List Nat :=
  [1, 0, 0, 0, 2, 0, 0, 0, 1, 0, 0, 0, 2, 0, 0, 0,
   1, 0, 0, 0, 2, 0, 0, 0, 1, 0, 0, 0, 2, 0, 0, 0]

/-- Claim C1 counterexample.  `checker_4x2` has 2 distinct colors and 8
pixels (so it satisfies the claim's `pixel count ≥ 4·c` bound, and a
fortiori the claim's 2×2 checkerboard example fails too, having only 4
pixels); the code requires `c < pixels/4`, i.e. strictly more than 4
pixels per color, so the payload begins with the JPEG control byte 0x90,
not with `0x80 | (c-1) = 0x81`. -/
theorem c1_claim_counterexample :
    (build_palette (rgba_to_rgb24_pixels checker_4x2)).length = 2 ∧
    (rgba_to_rgb24_pixels checker_4x2).length = 8 ∧
    4 * 2 ≤ 8 ∧
    (tight_encode zlib_id jpeg_id checker_4x2 4 2 75 6).head? = some 144 ∧
    ¬ (tight_encode zlib_id jpeg_id checker_4x2 4 2 75 6).head? = some 129 := by
  decide

/-- Claim C1, amended.  For a rectangle whose distinct color count `c`
satisfies `2 ≤ c ≤ 16` and `c < pixel count / 4` (integer division, i.e.
the pixel count is at least `4·(c+1)`), `TightEncoding::encode` selects
the indexed-palette sub-encoding and its output is control byte
`0x80 | (c-1)`, the `c` palette colors (4 bytes each, first-seen order),
then the compact length of the zlib-compressed one-byte-per-pixel
indices followed by those compressed bytes. -/
theorem c1_palette_encoding
    (Z : Compression → List Nat → ZlibOutcome)
    (J : List Nat → Nat → Nat → Nat → JpegOutcome)
    (data : List Nat) (width height quality compression : Nat)
    (zbytes : List Nat)
    (h2 : 2 ≤ (build_palette (rgba_to_rgb24_pixels data)).length)
    (h16 : (build_palette (rgba_to_rgb24_pixels data)).length ≤ 16)
    (hq : (build_palette (rgba_to_rgb24_pixels data)).length
            < (rgba_to_rgb24_pixels data).length / 4)
    (hz : Z (compression_level compression)
            ((rgba_to_rgb24_pixels data).map
              (color_index (build_palette (rgba_to_rgb24_pixels data))))
          = .ok zbytes) :
    tight_encode Z J data width height quality compression
      = (128 + ((build_palette (rgba_to_rgb24_pixels data)).length - 1))
          :: (((build_palette (rgba_to_rgb24_pixels data)).map put_pixel32).flatten
              ++ (encode_compact_len zbytes.length ++ zbytes)) := by
  have hs : check_solid_color (rgba_to_rgb24_pixels data) = none :=
    check_solid_of_palette h2
  simp only [tight_encode, hs]
  rw [if_pos ⟨h2, h16, hq⟩]
  simp only [encode_tight_palette, hz]
  congr 1
  have hm : ((build_palette (rgba_to_rgb24_pixels data)).length - 1) % 256
      = (build_palette (rgba_to_rgb24_pixels data)).length - 1 := by
    omega
  rw [hm]
  exact lor_small _ (by omega)

/-- Twelve pixels, color 1 eight times then color 2 four times:
`2 < 12 / 4`, so the palette path is taken. -/
def pal_data_4x3 : List Nat :=
  [1, 0, 0, 0, 1, 0, 0, 0, 1, 0, 0, 0, 1, 0, 0, 0,
   1, 0, 0, 0, 1, 0, 0, 0, 1, 0, 0, 0, 1, 0, 0, 0,
   2, 0, 0, 0, 2, 0, 0, 0, 2, 0, 0, 0, 2, 0, 0, 0]

theorem c1_palette_encoding_witness :
    2 ≤ (build_palette (rgba_to_rgb24_pixels pal_data_4x3)).length ∧
    (build_palette (rgba_to_rgb24_pixels pal_data_4x3)).length ≤ 16 ∧
    (build_palette (rgba_to_rgb24_pixels pal_data_4x3)).length
      < (rgba_to_rgb24_pixels pal_data_4x3).length / 4 ∧
    zlib_id (compression_level 6)
        ((rgba_to_rgb24_pixels pal_data_4x3).map
          (color_index (build_palette (rgba_to_rgb24_pixels pal_data_4x3))))
      = ZlibOutcome.ok [0, 0, 0, 0, 0, 0, 0, 0, 1, 1, 1, 1] ∧
    tight_encode zlib_id jpeg_id pal_data_4x3 4 3 75 6
      = (128 + ((build_palette (rgba_to_rgb24_pixels pal_data_4x3)).length - 1))
          :: (((build_palette (rgba_to_rgb24_pixels pal_data_4x3)).map put_pixel32).flatten
              ++ (encode_compact_len
                    (List.length [0, 0, 0, 0, 0, 0, 0, 0, 1, 1, 1, 1])
                  ++ [0, 0, 0, 0, 0, 0, 0, 0, 1, 1, 1, 1])) :=
  ⟨by decide, by decide, by decide, by decide,
   c1_palette_encoding zlib_id jpeg_id pal_data_4x3 4 3 75 6
     [0, 0, 0, 0, 0, 0, 0, 0, 1, 1, 1, 1]
     (by decide) (by decide) (by decide) (by decide)⟩

/-! Section: JNI layer (vnc_jni.rs) -/

/-- A Java string reference as seen through JNI: null, a string, or a
reference whose `get_string` call fails. -/
inductive JavaString where
  | jnull
  | jstr (s : String)
  | jinvalid
deriving DecidableEq

/-- `JNIEnv::get_string`: fails on null and invalid references. -/
def get_string : JavaString → Option String
  | .jstr s => some s
  | _ => none

/-- `JObject::is_null`. -/
def is_null : JavaString → Bool
  | .jnull => true
  | _ => false

/-- Global state the JNI entry points consult: whether `vncInit` has set
up the `VNC_SERVER` container, and whether locking its mutex succeeds. -/
structure JniGlobals where
  containerInit : Bool
  lockOk : Bool
deriving DecidableEq

/-- The arguments `vncStartServer` passes to `VncServer::new` (the
server type itself lives in the `rustvncserver` crate, outside this
tree). -/
structure VncServerConfig where
  width : Nat
  height : Nat
  desktopName : String
  password : Option String
deriving DecidableEq

/-- Result of `vncStartServer`: the JNI boolean, the server stored into
the global container (`none` when no server was created and stored), and
whether a listener (accept-loop) task was spawned. -/
structure StartResult where
  ret : Bool
  created : Option VncServerConfig
  listener : Bool
deriving DecidableEq

/-- vnc_jni.rs lines 159-173: `u16::try_from(v)` composed with the
`MIN_DIMENSION ..= MAX_DIMENSION` (1-8192) guard. -/
def validate_dim (v : Int) : Option Nat :=
  if 0 ≤ v ∧ v ≤ 65535 then
    (if 1 ≤ v.toNat ∧ v.toNat ≤ 8192 then some v.toNat else none)
  else none

/-- vnc_jni.rs lines 176-186: `-1` means inbound connections disabled;
otherwise the port must convert to `u16` and be positive. -/
def validate_port (port : Int) : Option (Option Nat) :=
  if port = -1 then some none
  else if 0 ≤ port ∧ port ≤ 65535 then
    (if 0 < port.toNat then some (some port.toNat) else none)
  else none

/-- vnc_jni.rs lines 196-210: a null reference, a `get_string` failure
and an empty string all yield no password. -/
def password_opt (password : JavaString) : Option String :=
  if is_null password then none
  else
    match get_string password with
    | some pw => if pw = "" then none else some pw
    | none => none

/-- vnc_jni.rs `vncStartServer` (lines 146-265): validate width, height
and port in that order, read the desktop name, compute the password
option, create the server, store it in the container, and spawn the
accept loop only when a port was given. -/
def vncStartServer (g : JniGlobals) (width height port : Int)
    (desktop_name password : JavaString) : StartResult :=
  match validate_dim width with
  | none => ⟨false, none, false⟩
  | some w =>
    match validate_dim height with
    | none => ⟨false, none, false⟩
    | some h =>
      match validate_port port with
      | none => ⟨false, none, false⟩
      | some port_opt =>
        match get_string desktop_name with
        | none => ⟨false, none, false⟩
        | some name =>
          let pw := password_opt password
          if g.containerInit then
            if g.lockOk then
              ⟨true, some ⟨w, h, name, pw⟩, port_opt.isSome⟩
            else ⟨false, none, false⟩
          else ⟨false, none, false⟩

theorem validate_dim_none {v : Int} (h : ¬ (1 ≤ v ∧ v ≤ 8192)) :
    validate_dim v = none := by
  unfold validate_dim
  split
  · next h065 =>
      rw [if_neg]
      intro hc
      exact h ⟨by omega, by omega⟩
  · rfl

theorem validate_dim_some {v : Int} (h1 : 1 ≤ v) (h2 : v ≤ 8192) :
    validate_dim v = some v.toNat := by
  unfold validate_dim
  rw [if_pos ⟨by omega, by omega⟩, if_pos ⟨by omega, by omega⟩]

theorem validate_port_none {port : Int} (h1 : port ≠ -1)
    (h2 : ¬ (1 ≤ port ∧ port ≤ 65535)) : validate_port port = none := by
  unfold validate_port
  rw [if_neg h1]
  split
  · next h065 =>
      rw [if_neg]
      intro hc
      exact h2 ⟨by omega, by omega⟩
  · rfl

/-- Claim C7.  `vncStartServer` returns JNI_FALSE, creating no server,
whenever width or height falls outside 1..8192 or the port is neither -1
nor in 1..65535; with port -1 and valid arguments the server is created
and stored but no accept loop is spawned (outbound-only mode). -/
theorem c7_start_server_validation (g : JniGlobals)
    (width height port : Int) (dn pw : JavaString) :
    ((¬ (1 ≤ width ∧ width ≤ 8192) ∨ ¬ (1 ≤ height ∧ height ≤ 8192) ∨
        (port ≠ -1 ∧ ¬ (1 ≤ port ∧ port ≤ 65535))) →
      vncStartServer g width height port dn pw = ⟨false, none, false⟩) ∧
    (∀ s, dn = .jstr s → g.containerInit = true → g.lockOk = true →
      1 ≤ width → width ≤ 8192 → 1 ≤ height → height ≤ 8192 → port = -1 →
      (vncStartServer g width height port dn pw).created
          = some ⟨width.toNat, height.toNat, s, password_opt pw⟩ ∧
      (vncStartServer g width height port dn pw).listener = false) := by
  constructor
  · intro hbad
    rcases hbad with h | h | h
    · simp only [vncStartServer, validate_dim_none h]
    · cases hw : validate_dim width with
      | none => simp only [vncStartServer, hw]
      | some w => simp only [vncStartServer, hw, validate_dim_none h]
    · cases hw : validate_dim width with
      | none => simp only [vncStartServer, hw]
      | some w =>
        cases hh : validate_dim height with
        | none => simp only [vncStartServer, hw, hh]
        | some hgt =>
          simp only [vncStartServer, hw, hh, validate_port_none h.1 h.2]
  · intro s hdn hci hlk hw1 hw2 hh1 hh2 hp
    subst hdn
    subst hp
    simp only [vncStartServer, validate_dim_some hw1 hw2,
      validate_dim_some hh1 hh2, get_string, hci, hlk, if_true]
    exact ⟨rfl, rfl⟩

theorem c7_start_server_validation_witness :
    ((¬ (1 ≤ (0 : Int) ∧ (0 : Int) ≤ 8192) ∨ ¬ (1 ≤ (2 : Int) ∧ (2 : Int) ≤ 8192) ∨
        ((-1 : Int) ≠ -1 ∧ ¬ (1 ≤ (-1 : Int) ∧ (-1 : Int) ≤ 65535))) ∧
     vncStartServer ⟨true, true⟩ 0 2 (-1) (.jstr "T") .jnull
       = ⟨false, none, false⟩) ∧
    ((vncStartServer ⟨true, true⟩ 4 2 (-1) (.jstr "T") .jnull).created
       = some ⟨(4 : Int).toNat, (2 : Int).toNat, "T", password_opt .jnull⟩ ∧
     (vncStartServer ⟨true, true⟩ 4 2 (-1) (.jstr "T") .jnull).listener = false) :=
  ⟨⟨Or.inl (by decide),
    (c7_start_server_validation ⟨true, true⟩ 0 2 (-1) (.jstr "T") .jnull).1
      (Or.inl (by decide))⟩,
   (c7_start_server_validation ⟨true, true⟩ 4 2 (-1) (.jstr "T") .jnull).2
     "T" rfl rfl rfl (by decide) (by decide) (by decide) (by decide) rfl⟩

theorem vncStartServer_password_congr {g : JniGlobals}
    {width height port : Int} {dn : JavaString} {pw1 pw2 : JavaString}
    (h : password_opt pw1 = password_opt pw2) :
    vncStartServer g width height port dn pw1
      = vncStartServer g width height port dn pw2 := by
  unfold vncStartServer
  rw [h]

theorem created_password (g : JniGlobals) (width height port : Int)
    (dn pw : JavaString) (cfg : VncServerConfig)
    (h : (vncStartServer g width height port dn pw).created = some cfg) :
    cfg.password = password_opt pw := by
  simp only [vncStartServer] at h
  split at h
  · simp at h
  · split at h
    · simp at h
    · split at h
      · simp at h
      · split at h
        · simp at h
        · split at h
          · split at h
            · simp only [Option.some.injEq] at h
              rw [← h]
            · simp at h
          · simp at h

/-- Claim C10.  `vncStartServer` treats a null password reference and an
empty password string identically: both produce password option `none`
(the whole call is unchanged), so an empty password can never arm
VncAuth; only a non-empty string yields `some password`. -/
theorem c10_password (g : JniGlobals) (width height port : Int)
    (dn : JavaString) :
    vncStartServer g width height port dn .jnull
      = vncStartServer g width height port dn (.jstr "") ∧
    (∀ cfg, (vncStartServer g width height port dn .jnull).created = some cfg →
      cfg.password = none) ∧
    (∀ s cfg, s ≠ "" →
      (vncStartServer g width height port dn (.jstr s)).created = some cfg →
      cfg.password = some s) := by
  refine ⟨vncStartServer_password_congr (by decide), ?_, ?_⟩
  · intro cfg h
    rw [created_password g width height port dn .jnull cfg h]
    rfl
  · intro s cfg hs h
    rw [created_password g width height port dn (.jstr s) cfg h]
    simp [password_opt, get_string, is_null, hs]

theorem c10_password_witness :
    (vncStartServer ⟨true, true⟩ 4 2 (-1) (.jstr "T") .jnull
       = vncStartServer ⟨true, true⟩ 4 2 (-1) (.jstr "T") (.jstr "")) ∧
    ((vncStartServer ⟨true, true⟩ 4 2 (-1) (.jstr "T") .jnull).created
       = some ⟨4, 2, "T", none⟩ ∧
     (⟨4, 2, "T", none⟩ : VncServerConfig).password = none) ∧
    ("pw" ≠ "" ∧
     (vncStartServer ⟨true, true⟩ 4 2 (-1) (.jstr "T") (.jstr "pw")).created
       = some ⟨4, 2, "T", some "pw"⟩ ∧
     (⟨4, 2, "T", some "pw"⟩ : VncServerConfig).password = some "pw") :=
  ⟨(c10_password ⟨true, true⟩ 4 2 (-1) (.jstr "T")).1,
   ⟨by decide,
    (c10_password ⟨true, true⟩ 4 2 (-1) (.jstr "T")).2.1 _ (by decide)⟩,
   ⟨by decide, by decide,
    (c10_password ⟨true, true⟩ 4 2 (-1) (.jstr "T")).2.2 "pw" _ (by decide)
      (by decide)⟩⟩

/-- Modelled from the spec: the framebuffer
`{width, height, bytes : W·H·4 bytes}` (the `rustvncserver` framebuffer
is not part of this tree). -/
structure Framebuffer where
  width : Nat
  height : Nat
  bytes : List Nat
deriving DecidableEq

/-- Byte `k` of the framebuffer after blitting `buf` over the rectangle
`(x, y, w, h)`, clipped to the framebuffer. -/
def blit_byte (fb : Framebuffer) (buf : List Nat) (x y w h : Nat)
    (k : Nat) : Nat :=
  let pix := k / 4
  let px := pix % fb.width
  let py := pix / fb.width
  if x ≤ px ∧ px < x + w ∧ y ≤ py ∧ py < y + h then
    buf.getD (4 * ((py - y) * w + (px - x)) + k % 4) 0
  else fb.bytes.getD k 0

/-- Modelled from the spec: `update_cropped(buf, x, y, w, h)` is an
"in-place blit; buf.len == w·h·4 else SizeMismatch", applied as a whole
("either the whole update applies and generation advances, or it is
rejected"). -/
def update_cropped (fb : Framebuffer) (buf : List Nat) (x y w h : Nat) :
    Except String Framebuffer :=
  if buf.length ≠ w * h * 4 then .error "SizeMismatch"
  else .ok { fb with
    bytes := (List.range fb.bytes.length).map (blit_byte fb buf x y w h) }

/-- vnc_jni.rs `vncUpdateFramebufferCropped` (lines 399-485).  `buffer`
is `none` when `get_direct_buffer_address`/`capacity` fails; `server` is
the framebuffer of the stored server, `none` when no server is running.
Returns the JNI boolean and the stored framebuffer afterwards.  The
`checked_mul` in the source cannot overflow a 64-bit `usize` once both
factors have passed the `≤ 8192` guard, so the multiplication appears
directly; its `unwrap_or(0)` is kept as the `expected_size = 0` check. -/
def vncUpdateFramebufferCropped (server : Option Framebuffer)
    (buffer : Option (List Nat))
    (crop_x crop_y crop_width crop_height : Int) :
    Bool × Option Framebuffer :=
  match buffer with
  | none => (false, server)
  | some buf =>
    if crop_x < 0 ∨ crop_y < 0 ∨ crop_width ≤ 0 ∨ crop_height ≤ 0 then
      (false, server)
    else if 8192 < crop_width ∨ 8192 < crop_height then
      (false, server)
    else
      let expected_size := crop_width.toNat * crop_height.toNat * 4
      if expected_size = 0 ∨ buf.length ≠ expected_size then
        (false, server)
      else
        match server with
        | none => (false, none)
        | some fb =>
          match update_cropped fb buf crop_x.toNat crop_y.toNat
              crop_width.toNat crop_height.toNat with
          | .error _ => (false, some fb)
          | .ok fb2 => (true, some fb2)

/-- Claim C8.  `vncUpdateFramebufferCropped` returns JNI_FALSE and leaves
the framebuffer untouched whenever the crop parameters are negative,
zero-sized or larger than 8192, or the buffer capacity differs from
`crop_width * crop_height * 4`; more generally, whenever it returns
JNI_FALSE the stored framebuffer is exactly what it was before, so a
rejected call never applies any part of an update. -/
theorem c8_update_cropped_validation (server : Option Framebuffer)
    (buf : List Nat) (x y w h : Int) :
    ((x < 0 ∨ y < 0 ∨ w ≤ 0 ∨ h ≤ 0 ∨ 8192 < w ∨ 8192 < h ∨
        buf.length ≠ w.toNat * h.toNat * 4) →
      vncUpdateFramebufferCropped server (some buf) x y w h
        = (false, server)) ∧
    ((vncUpdateFramebufferCropped server (some buf) x y w h).1 = false →
      (vncUpdateFramebufferCropped server (some buf) x y w h).2 = server) := by
  have heq : vncUpdateFramebufferCropped server (some buf) x y w h =
      (if x < 0 ∨ y < 0 ∨ w ≤ 0 ∨ h ≤ 0 then (false, server)
       else if 8192 < w ∨ 8192 < h then (false, server)
       else if w.toNat * h.toNat * 4 = 0 ∨
           buf.length ≠ w.toNat * h.toNat * 4 then (false, server)
       else
         match server with
         | none => (false, none)
         | some fb =>
           match update_cropped fb buf x.toNat y.toNat w.toNat h.toNat with
           | .error _ => (false, some fb)
           | .ok fb2 => (true, some fb2)) := rfl
  rw [heq]
  constructor
  · intro hbad
    by_cases hv1 : x < 0 ∨ y < 0 ∨ w ≤ 0 ∨ h ≤ 0
    · rw [if_pos hv1]
    · rw [if_neg hv1]
      by_cases hv2 : 8192 < w ∨ 8192 < h
      · rw [if_pos hv2]
      · rw [if_neg hv2]
        have hv3 : w.toNat * h.toNat * 4 = 0 ∨
            buf.length ≠ w.toNat * h.toNat * 4 := by
          push_neg at hv1 hv2
          rcases hbad with hx | hx | hx | hx | hx | hx | hx
          · exact absurd hx (by omega)
          · exact absurd hx (by omega)
          · exact absurd hx (by omega)
          · exact absurd hx (by omega)
          · exact absurd hx (by omega)
          · exact absurd hx (by omega)
          · exact Or.inr hx
        rw [if_pos hv3]
  · by_cases hv1 : x < 0 ∨ y < 0 ∨ w ≤ 0 ∨ h ≤ 0
    · rw [if_pos hv1]
      intro _
      rfl
    · rw [if_neg hv1]
      by_cases hv2 : 8192 < w ∨ 8192 < h
      · rw [if_pos hv2]
        intro _
        rfl
      · rw [if_neg hv2]
        by_cases hv3 : w.toNat * h.toNat * 4 = 0 ∨
            buf.length ≠ w.toNat * h.toNat * 4
        · rw [if_pos hv3]
          intro _
          rfl
        · rw [if_neg hv3]
          cases server with
          | none => intro _; rfl
          | some fb =>
            show (match update_cropped fb buf x.toNat y.toNat w.toNat h.toNat with
                  | .error _ => (false, some fb)
                  | .ok fb2 => (true, some fb2)).1 = false →
                (match update_cropped fb buf x.toNat y.toNat w.toNat h.toNat with
                  | .error _ => (false, some fb)
                  | .ok fb2 => (true, some fb2)).2 = some fb
            cases hu : update_cropped fb buf x.toNat y.toNat w.toNat h.toNat with
            | error e =>
                intro _
                rfl
            | ok fb2 =>
                intro hf
                exact absurd hf (by simp)

theorem c8_update_cropped_validation_witness :
    (([1, 2, 3] : List Nat).length ≠ (1 : Int).toNat * (1 : Int).toNat * 4) ∧
    vncUpdateFramebufferCropped (some ⟨2, 2, List.replicate 16 0⟩)
        (some [1, 2, 3]) 0 0 1 1
      = (false, some ⟨2, 2, List.replicate 16 0⟩) ∧
    (vncUpdateFramebufferCropped (some ⟨2, 2, List.replicate 16 0⟩)
        (some [1, 2, 3]) 0 0 1 1).2 = some ⟨2, 2, List.replicate 16 0⟩ :=
  ⟨by decide,
   (c8_update_cropped_validation (some ⟨2, 2, List.replicate 16 0⟩)
       [1, 2, 3] 0 0 1 1).1
     (Or.inr (Or.inr (Or.inr (Or.inr (Or.inr (Or.inr (by decide))))))),
   (c8_update_cropped_validation (some ⟨2, 2, List.replicate 16 0⟩)
       [1, 2, 3] 0 0 1 1).2 (by decide)⟩

end RustVNC
